import Mathlib

/-!
Shallow embedding of the branch-prediction unit coordinator of MARSS-RISCV
(src/riscvsim/bpu.c). The coordinator functions `bpu_probe`, `bpu_get_target`,
`bpu_add` and `bpu_update` are translated directly from the C source. The
collaborators (branch target buffer `btb_*` and adaptive predictor
`adaptive_predictor_*`, declared in headers and files not present under src/)
are modelled from the specification's interface contracts; each such
definition carries a doc comment saying so.

Machine integers become `Nat`; the probe-status ints use the source's
constants BPU_MISS = 0 and BPU_HIT = 1; C truthiness tests (`!x`, `if (x)`)
become `= 0` / `≠ 0` tests; the C logical AND on statuses becomes `cLAnd`.
A null-pointer dereference makes the embedded function return `none`, and the
fatal `assert(0)` in `bpu_get_target` is likewise modelled by `none`.
-/

/-- Source constant (bpu.c line 32): prediction bit for not taken. -/
def PRED_NOT_TAKEN : Nat := 0

/-- Source constant (bpu.c line 33): prediction bit for taken. -/
def PRED_TAKEN : Nat := 1

/-- Source constant (bpu.c line 34): probe status miss. -/
def BPU_MISS : Nat := 0

/-- Source constant (bpu.c line 35): probe status hit. -/
def BPU_HIT : Nat := 1

/-- Modelled from the spec: the branch-type tag for unconditional branches.
The enum lives in a header missing from src/; the spec only requires the two
tags UNCONDITIONAL and CONDITIONAL to be distinct values of the C int used as
the tag, with further values possible (the contract-violation case). -/
def BRANCH_UNCOND : Nat := 0

/-- Modelled from the spec: the branch-type tag for conditional branches. -/
def BRANCH_COND : Nat := 1

/-- C logical AND on int operands, as in
`p->bpu_probe_status = p->btb_probe_status && p->ap_probe_status;`:
yields 1 when both operands are nonzero, else 0. -/
def cLAnd (a b : Nat) : Nat := if a ≠ 0 ∧ b ≠ 0 then 1 else 0

/-- Modelled from the spec: the per-privilege-level statistics record
(declared in a header missing from src/); only the four counters the
coordinator touches are modelled. -/
structure SimStats where
  btb_probes : Nat
  btb_hits : Nat
  btb_inserts : Nat
  btb_updates : Nat
deriving DecidableEq

/-- Modelled from the spec: a BTB entry
{target address, branch type, saturating 2-bit prediction counter}.
The struct is declared in a header missing from src/; field names follow
the accesses in bpu.c (`target`, `type`, `pred`). -/
structure BtbEntry where
  target : Nat
  type : Nat
  pred : Nat
deriving DecidableEq

/-- Modelled from the spec: the optional second-level adaptive predictor.
Its internals (pattern-history tables) are out of scope; we model its
observable state: the set of pcs holding tracking state (governing its
probe status), the log of (pc, taken-bit) pairs fed to its update rule, and
an abstract per-pc direction verdict `predFn` (nonzero means taken, matching
the C truthiness test on `adaptive_predictor_get_prediction`). -/
structure AdaptivePredictor where
  tracked : List Nat
  history : List (Nat × Nat)
  predFn : Nat → Nat

/-- Modelled from the spec: `adaptive_predictor_probe` reports HIT exactly
when tracking state for the pc exists (spec 4.4: add allocates tracking state
when the prior ap probe missed; probe status HIT means state already exists). -/
def adaptive_predictor_probe (ap : AdaptivePredictor) (pc : Nat) : Nat :=
  if pc ∈ ap.tracked then BPU_HIT else BPU_MISS

/-- Modelled from the spec: `adaptive_predictor_add` allocates tracking
state for the pc. -/
def adaptive_predictor_add (ap : AdaptivePredictor) (pc : Nat) : AdaptivePredictor :=
  { ap with tracked := pc :: ap.tracked }

/-- Modelled from the spec: `adaptive_predictor_update` feeds the resolved
taken-bit for the pc into the predictor's history/counter update rule,
recorded here as a log entry. -/
def adaptive_predictor_update (ap : AdaptivePredictor) (pc taken : Nat) : AdaptivePredictor :=
  { ap with history := (pc, taken) :: ap.history }

/-- Modelled from the spec: `adaptive_predictor_get_prediction` returns the
predictor's taken/not-taken verdict (a C int tested for truthiness). -/
def adaptive_predictor_get_prediction (ap : AdaptivePredictor) (pc : Nat) : Nat :=
  ap.predFn pc

/-- The branch-prediction unit (bpu.h struct, fields as used in bpu.c):
the owned BTB, the optional adaptive predictor, and the per-privilege
statistics array, modelled as a function from privilege level. -/
structure BranchPredUnit where
  btb : List (Nat × BtbEntry)
  ap : Option AdaptivePredictor
  stats : Nat → SimStats

/-- The BPUResponsePkt filled by `bpu_probe` (bpu.h struct, fields as used in
bpu.c). The borrowed `BtbEntry *` pointer is modelled as an `Option BtbEntry`:
`none` when the probe missed and no valid reference exists. -/
structure BPUResponsePkt where
  btb_probe_status : Nat
  ap_probe_status : Nat
  bpu_probe_status : Nat
  btb_entry : Option BtbEntry
deriving DecidableEq

/-- Association-list lookup into the modelled BTB storage. -/
def lookupBtb : List (Nat × BtbEntry) → Nat → Option BtbEntry
  | [], _ => none
  | (k, e) :: rest, pc => if k = pc then some e else lookupBtb rest pc

/-- Modelled from the spec: `btb_probe` maps a pc to its stored entry;
it returns HIT and a borrowed reference to the entry when present,
MISS and no reference otherwise. -/
def btb_probe (btb : List (Nat × BtbEntry)) (pc : Nat) : Nat × Option BtbEntry :=
  match lookupBtb btb pc with
  | some e => (BPU_HIT, some e)
  | none => (BPU_MISS, none)

/-- Modelled from the spec: `btb_add` allocates a new entry for the pc with
the given branch type, target and counter left at structure-defined defaults
(modelled as 0). -/
def btb_add (btb : List (Nat × BtbEntry)) (pc ty : Nat) : List (Nat × BtbEntry) :=
  (pc, { target := 0, type := ty, pred := 0 }) :: btb

/-- Modelled from the spec: the effect of `btb_update` on the entry reached
through the borrowed reference: the target is overwritten with the resolved
target and the saturating counter moves one step toward 3 on taken, one step
toward 0 on not taken, clamped to [0,3] (`Nat` subtraction clamps at 0).
The spec does not say the branch type is rewritten, so it is left unchanged. -/
def btb_update_entry (e : BtbEntry) (target taken : Nat) : BtbEntry :=
  { e with
    target := target
    pred := if taken = PRED_NOT_TAKEN then e.pred - 1 else min (e.pred + 1) 3 }

/-- Writes an updated entry value back into the BTB storage slot for the pc
(the slot the borrowed reference points into). -/
def writeBtb : List (Nat × BtbEntry) → Nat → BtbEntry → List (Nat × BtbEntry)
  | [], _, _ => []
  | (k, e) :: rest, pc, e' =>
      if k = pc then (k, e') :: rest else (k, e) :: writeBtb rest pc e'

/-- The statistics effect of one `bpu_probe` call at privilege `priv`
(bpu.c lines 86-90): `btb_hits` is incremented when the BTB probe hit, and
`btb_probes` is always incremented. -/
def bumpProbeStats (stats : Nat → SimStats) (priv : Nat) (hit : Bool) : Nat → SimStats :=
  fun q =>
    if q = priv then
      let s0 := stats priv
      let s1 := if hit then { s0 with btb_hits := s0.btb_hits + 1 } else s0
      { s1 with btb_probes := s1.btb_probes + 1 }
    else stats q

/-- Builds the response packet as bpu_probe leaves it: the final line of
bpu_probe computes `bpu_probe_status` as the C logical AND of the two
statuses. -/
def mkProbePkt (btbSt apSt : Nat) (ent : Option BtbEntry) : BPUResponsePkt :=
  { btb_probe_status := btbSt
    ap_probe_status := apSt
    bpu_probe_status := cLAnd btbSt apSt
    btb_entry := ent }

/-- bpu.c `bpu_probe` (lines 81-99). `ap_probe_status` starts at BPU_HIT;
the BTB is probed and statistics bumped; then, mirroring the C short-circuit
`u->ap && (status == BPU_MISS || p->btb_entry->type == BRANCH_COND)`, the
adaptive predictor is re-queried when it exists and the BTB either missed or
hit a conditional entry. Dereferencing the entry reference when none exists
returns `none` (undefined behaviour in C). -/
def bpu_probe (u : BranchPredUnit) (pc priv : Nat) :
    Option (BranchPredUnit × BPUResponsePkt) :=
  let pr := btb_probe u.btb pc
  let u' : BranchPredUnit :=
    { u with stats := bumpProbeStats u.stats priv (pr.1 = BPU_HIT) }
  match u.ap with
  | none => some (u', mkProbePkt pr.1 BPU_HIT pr.2)
  | some ap =>
    if pr.1 = BPU_MISS then
      some (u', mkProbePkt pr.1 (adaptive_predictor_probe ap pc) pr.2)
    else
      match pr.2 with
      | none => none
      | some e =>
        if e.type = BRANCH_COND then
          some (u', mkProbePkt pr.1 (adaptive_predictor_probe ap pc) pr.2)
        else
          some (u', mkProbePkt pr.1 BPU_HIT pr.2)

/-- bpu.c `bpu_get_target` (lines 106-146). Switches on the entry's branch
type; the fall-through `assert(0)` for any other tag is modelled by `none`. -/
def bpu_get_target (u : BranchPredUnit) (pc : Nat) (e : BtbEntry) : Option Nat :=
  if e.type = BRANCH_UNCOND then
    some e.target
  else if e.type = BRANCH_COND then
    match u.ap with
    | some ap =>
      if adaptive_predictor_get_prediction ap pc ≠ 0 then some e.target else some 0
    | none =>
      if e.pred > 1 then some e.target else some 0
  else
    none

/-- bpu.c `bpu_add` (lines 148-167). `if (!p->btb_probe_status)` allocate a
BTB entry and bump inserts; `if (u->ap && type == BRANCH_COND)` and
`!p->ap_probe_status`, add the pc to the adaptive predictor. -/
def bpu_add (u : BranchPredUnit) (pc ty : Nat) (p : BPUResponsePkt) (priv : Nat) :
    BranchPredUnit :=
  let u1 : BranchPredUnit :=
    if p.btb_probe_status = 0 then
      { u with
        btb := btb_add u.btb pc ty
        stats := fun q =>
          if q = priv then
            { u.stats q with btb_inserts := (u.stats q).btb_inserts + 1 }
          else u.stats q }
    else u
  match u1.ap with
  | some ap =>
    if ty = BRANCH_COND then
      if p.ap_probe_status = 0 then
        { u1 with ap := some (adaptive_predictor_add ap pc) }
      else u1
    else u1
  | none => u1

/-- bpu.c `bpu_update` (lines 169-188). `if (p->btb_probe_status)` update the
entry through the borrowed reference (a dereference of a missing reference
returns `none`) and bump updates; `if (u->ap && type == BRANCH_COND)` and
`p->ap_probe_status`, feed the taken-bit to the adaptive predictor. -/
def bpu_update (u : BranchPredUnit) (pc target taken ty : Nat)
    (p : BPUResponsePkt) (priv : Nat) : Option BranchPredUnit :=
  let step1 : Option BranchPredUnit :=
    if p.btb_probe_status ≠ 0 then
      match p.btb_entry with
      | some e =>
        some { u with
               btb := writeBtb u.btb pc (btb_update_entry e target taken)
               stats := fun q =>
                 if q = priv then
                   { u.stats q with btb_updates := (u.stats q).btb_updates + 1 }
                 else u.stats q }
      | none => none
    else some u
  match step1 with
  | none => none
  | some u1 =>
    match u1.ap with
    | some ap =>
      if ty = BRANCH_COND then
        if p.ap_probe_status ≠ 0 then
          some { u1 with ap := some (adaptive_predictor_update ap pc taken) }
        else some u1
      else some u1
    | none => some u1

/-- Sequencing of `bpu_probe` calls at a fixed privilege level, threading the
unit state; fails if any single probe fails. -/
def probeMany (u : BranchPredUnit) (pcs : List Nat) (priv : Nat) :
    Option BranchPredUnit :=
  match pcs with
  | [] => some u
  | pc :: rest =>
    match bpu_probe u pc priv with
    | some r => probeMany r.1 rest priv
    | none => none

/-- The unit's adaptive predictor holds tracking state for the pc. -/
def apTracks (u : BranchPredUnit) (pc : Nat) : Prop :=
  ∃ ap, u.ap = some ap ∧ pc ∈ ap.tracked

/-- The unit's adaptive predictor has been fed the taken-bit `taken` for
the pc via its update rule. -/
def apFed (u : BranchPredUnit) (pc taken : Nat) : Prop :=
  ∃ ap, u.ap = some ap ∧ (pc, taken) ∈ ap.history

/-- Concrete units and packets used by witness theorems. -/
def apSample : AdaptivePredictor :=
  { tracked := [7], history := [], predFn := fun q => if q = 7 then 1 else 0 }

def statsZero : Nat → SimStats :=
  fun _ => { btb_probes := 0, btb_hits := 0, btb_inserts := 0, btb_updates := 0 }

def uBimodal : BranchPredUnit :=
  { btb := [(7, { target := 8, type := BRANCH_COND, pred := 2 })]
    ap := none
    stats := statsZero }

def uAdaptive : BranchPredUnit :=
  { btb := [(7, { target := 8, type := BRANCH_COND, pred := 0 })]
    ap := some apSample
    stats := statsZero }

/-- The conditional entry stored in `uAdaptive` at pc 7. -/
def eCond : BtbEntry := { target := 8, type := BRANCH_COND, pred := 0 }

/-- A response packet recording a miss on both structures. -/
def pktMissAll : BPUResponsePkt :=
  { btb_probe_status := 0, ap_probe_status := 0, bpu_probe_status := 0,
    btb_entry := none }

/-- A response packet recording a hit on both structures, borrowing the
entry at pc 7 of `uAdaptive`. -/
def pktHitAll : BPUResponsePkt :=
  { btb_probe_status := 1, ap_probe_status := 1, bpu_probe_status := 1,
    btb_entry := some eCond }

/-- C3: for a BTB entry of type UNCONDITIONAL, `bpu_get_target` returns the
entry's stored target, for every unit state (adaptive predictor present or
absent, any counter value); in particular it never takes the sentinel
not-taken path, so whenever the stored target is nonzero the result is not
the sentinel 0. -/
theorem c3_uncond_returns_target (u : BranchPredUnit) (pc : Nat) (e : BtbEntry)
    (h : e.type = BRANCH_UNCOND) :
    bpu_get_target u pc e = some e.target ∧
      (e.target ≠ 0 → bpu_get_target u pc e ≠ some 0) := by
  constructor
  · simp [bpu_get_target, h]
  · intro ht hcontra
    simp [bpu_get_target, h] at hcontra
    exact ht hcontra

/-- Witness for C3 at a concrete unconditional entry. -/
theorem c3_uncond_returns_target_witness :
    ({ target := 5, type := BRANCH_UNCOND, pred := 0 } : BtbEntry).type = BRANCH_UNCOND ∧
      bpu_get_target uBimodal 7 { target := 5, type := BRANCH_UNCOND, pred := 0 } =
        some 5 ∧
      bpu_get_target uBimodal 7 { target := 5, type := BRANCH_UNCOND, pred := 0 } ≠
        some 0 := by
  refine ⟨rfl, ?_, ?_⟩
  · exact (c3_uncond_returns_target uBimodal 7 _ rfl).1
  · exact (c3_uncond_returns_target uBimodal 7 _ rfl).2 (by decide)

/-- C4 counterexample: the claim's biconditional "returns the sentinel 0 iff
the counter is 0 or 1" fails at a conditional entry whose stored target is
itself 0: in bimodal mode with counter value 2 the code returns the stored
target, whose value is the number 0, although 2 is neither 0 nor 1. -/
theorem c4_sentinel_iff_counterexample :
    bpu_get_target uBimodal 3 { target := 0, type := BRANCH_COND, pred := 2 } =
        some 0 ∧
      ¬(({ target := 0, type := BRANCH_COND, pred := 2 } : BtbEntry).pred = 0 ∨
        ({ target := 0, type := BRANCH_COND, pred := 2 } : BtbEntry).pred = 1) := by
  constructor
  · simp [bpu_get_target, BRANCH_COND, BRANCH_UNCOND, uBimodal]
  · decide

/-- C4 (amended): in bimodal mode (no adaptive predictor), for a CONDITIONAL
entry whose stored target is nonzero (0 is reserved as the sentinel) and
whose saturating counter value is in [0,3], `bpu_get_target` returns the
stored target iff the counter is 2 or 3, and the sentinel 0 iff the counter
is 0 or 1. -/
theorem c4_bimodal_threshold (u : BranchPredUnit) (pc : Nat) (e : BtbEntry)
    (hap : u.ap = none) (hty : e.type = BRANCH_COND) (hv : e.pred ≤ 3)
    (htg : e.target ≠ 0) :
    (bpu_get_target u pc e = some e.target ↔ (e.pred = 2 ∨ e.pred = 3)) ∧
      (bpu_get_target u pc e = some 0 ↔ (e.pred = 0 ∨ e.pred = 1)) := by
  constructor
  · constructor
    · intro hres
      by_contra hnot
      push_neg at hnot
      have : ¬ e.pred > 1 := by omega
      simp [bpu_get_target, hty, hap, BRANCH_UNCOND, BRANCH_COND, this] at hres
      exact htg hres.symm
    · intro hcase
      have : e.pred > 1 := by omega
      simp [bpu_get_target, hty, hap, BRANCH_UNCOND, BRANCH_COND, this]
  · constructor
    · intro hres
      by_contra hnot
      push_neg at hnot
      have : e.pred > 1 := by omega
      simp [bpu_get_target, hty, hap, BRANCH_UNCOND, BRANCH_COND, this] at hres
      exact htg hres
    · intro hcase
      have : ¬ e.pred > 1 := by omega
      simp [bpu_get_target, hty, hap, BRANCH_UNCOND, BRANCH_COND, this]

/-- Witness for the amended C4 at a concrete conditional entry. -/
theorem c4_bimodal_threshold_witness :
    uBimodal.ap = none ∧
      ({ target := 9, type := BRANCH_COND, pred := 2 } : BtbEntry).type = BRANCH_COND ∧
      ({ target := 9, type := BRANCH_COND, pred := 2 } : BtbEntry).pred ≤ 3 ∧
      ({ target := 9, type := BRANCH_COND, pred := 2 } : BtbEntry).target ≠ 0 ∧
      (bpu_get_target uBimodal 3 { target := 9, type := BRANCH_COND, pred := 2 } =
          some 9 ↔
        (({ target := 9, type := BRANCH_COND, pred := 2 } : BtbEntry).pred = 2 ∨
          ({ target := 9, type := BRANCH_COND, pred := 2 } : BtbEntry).pred = 3)) :=
  ⟨rfl, rfl, by decide, by decide,
    (c4_bimodal_threshold uBimodal 3 _ rfl rfl (by decide) (by decide)).1⟩

/-- C5: with an adaptive predictor configured, for a CONDITIONAL entry
`bpu_get_target` returns the stored target when the predictor's verdict for
the pc is taken (nonzero) and the sentinel 0 when it is not taken, and the
result does not depend on the entry's own saturating counter value. -/
theorem c5_adaptive_governs (u : BranchPredUnit) (pc : Nat) (e : BtbEntry)
    (ap : AdaptivePredictor) (hap : u.ap = some ap) (hty : e.type = BRANCH_COND) :
    bpu_get_target u pc e =
        (if adaptive_predictor_get_prediction ap pc ≠ 0 then some e.target
         else some 0) ∧
      (∀ v : Nat, bpu_get_target u pc { e with pred := v } = bpu_get_target u pc e) := by
  constructor
  · simp [bpu_get_target, hty, hap, BRANCH_UNCOND, BRANCH_COND]
  · intro v
    simp [bpu_get_target, hty, hap, BRANCH_UNCOND, BRANCH_COND]

/-- Witness for C5 at a concrete adaptive unit: the predictor's verdict for
pc 7 is taken, so the stored target is returned. -/
theorem c5_adaptive_governs_witness :
    uAdaptive.ap = some apSample ∧
      ({ target := 8, type := BRANCH_COND, pred := 0 } : BtbEntry).type = BRANCH_COND ∧
      bpu_get_target uAdaptive 7 { target := 8, type := BRANCH_COND, pred := 0 } =
        (if adaptive_predictor_get_prediction apSample 7 ≠ 0 then some 8 else some 0) :=
  ⟨rfl, rfl, (c5_adaptive_governs uAdaptive 7 _ apSample rfl rfl).1⟩

/-- C9: a BTB entry whose branch-type tag is neither UNCONDITIONAL nor
CONDITIONAL makes `bpu_get_target` reach the fatal `assert(0)` (modelled by
`none`): no default prediction value is returned. -/
theorem c9_bad_tag_asserts (u : BranchPredUnit) (pc : Nat) (e : BtbEntry)
    (h1 : e.type ≠ BRANCH_UNCOND) (h2 : e.type ≠ BRANCH_COND) :
    bpu_get_target u pc e = none := by
  simp [bpu_get_target, h1, h2]

/-- Witness for C9 at tag value 5. -/
theorem c9_bad_tag_asserts_witness :
    ({ target := 8, type := 5, pred := 0 } : BtbEntry).type ≠ BRANCH_UNCOND ∧
      ({ target := 8, type := 5, pred := 0 } : BtbEntry).type ≠ BRANCH_COND ∧
      bpu_get_target uAdaptive 7 { target := 8, type := 5, pred := 0 } = none :=
  ⟨by decide, by decide,
    c9_bad_tag_asserts uAdaptive 7 _ (by decide) (by decide)⟩

/-- The modelled adaptive-predictor probe status is binary (MISS or HIT). -/
lemma apProbe_binary (ap : AdaptivePredictor) (pc : Nat) :
    adaptive_predictor_probe ap pc = 0 ∨ adaptive_predictor_probe ap pc = 1 := by
  unfold adaptive_predictor_probe BPU_HIT BPU_MISS
  by_cases h : pc ∈ ap.tracked <;> simp [h]

/-- The adaptive-predictor consultation condition of bpu_probe lines 92-93,
phrased over the response packet's fields. -/
def apConsulted (r : BPUResponsePkt) : Prop :=
  r.btb_probe_status = BPU_MISS ∨ ∃ e, r.btb_entry = some e ∧ e.type = BRANCH_COND

instance (r : BPUResponsePkt) : Decidable (apConsulted r) := by
  unfold apConsulted
  have : Decidable (∃ e, r.btb_entry = some e ∧ e.type = BRANCH_COND) := by
    rcases hb : r.btb_entry with _ | e
    · exact isFalse (by simp)
    · by_cases ht : e.type = BRANCH_COND
      · exact isTrue ⟨e, rfl, ht⟩
      · exact isFalse (by simp [ht])
  exact inferInstance

/-- Full characterization of one successful `bpu_probe` call: the predictor
structures are untouched, the statistics are bumped, the packet's BTB status
and borrowed entry come from the BTB probe, both statuses are binary, the
combined status is the C logical AND, and `ap_probe_status` is the adaptive
probe's answer exactly under the consultation condition, else the initial
BPU_HIT. -/
lemma probeChar (u : BranchPredUnit) (pc priv : Nat)
    (r : BranchPredUnit × BPUResponsePkt) (h : bpu_probe u pc priv = some r) :
    r.1.btb = u.btb ∧ r.1.ap = u.ap ∧
    r.1.stats = bumpProbeStats u.stats priv ((btb_probe u.btb pc).1 = BPU_HIT) ∧
    r.2.btb_probe_status = (btb_probe u.btb pc).1 ∧
    r.2.btb_entry = (btb_probe u.btb pc).2 ∧
    r.2.bpu_probe_status = cLAnd r.2.btb_probe_status r.2.ap_probe_status ∧
    (r.2.btb_probe_status = 0 ∨ r.2.btb_probe_status = 1) ∧
    (r.2.ap_probe_status = 0 ∨ r.2.ap_probe_status = 1) ∧
    (u.ap = none → r.2.ap_probe_status = BPU_HIT) ∧
    (∀ ap, u.ap = some ap →
      (apConsulted r.2 → r.2.ap_probe_status = adaptive_predictor_probe ap pc) ∧
      (¬apConsulted r.2 → r.2.ap_probe_status = BPU_HIT)) := by
  rcases hap : u.ap with _ | ap <;>
    rcases hl : lookupBtb u.btb pc with _ | e <;>
      simp only [bpu_probe, btb_probe, hap, hl, BPU_MISS, BPU_HIT] at h
  · simp only [Option.some_inj] at h
    subst h
    simp [mkProbePkt, btb_probe, hl, hap, apConsulted, BPU_MISS, BPU_HIT]
  · simp only [Option.some_inj] at h
    subst h
    simp [mkProbePkt, btb_probe, hl, hap, apConsulted, BPU_MISS, BPU_HIT]
  · simp only [if_true, Option.some_inj] at h
    subst h
    simp [mkProbePkt, btb_probe, hl, hap, apConsulted, BPU_MISS, BPU_HIT,
      apProbe_binary ap pc]
  · rw [if_neg (by decide : ¬ (1 : Nat) = 0)] at h
    by_cases hty : e.type = BRANCH_COND
    · rw [if_pos hty] at h
      simp only [Option.some_inj] at h
      subst h
      simp [mkProbePkt, btb_probe, hl, hap, apConsulted, BPU_MISS, BPU_HIT,
        hty, apProbe_binary ap pc]
    · rw [if_neg hty] at h
      simp only [Option.some_inj] at h
      subst h
      simp [mkProbePkt, btb_probe, hl, hap, apConsulted, BPU_MISS, BPU_HIT, hty]

/-- `bpu_probe` always succeeds: the entry reference is only dereferenced
after the short-circuit established a BTB hit, and on a hit the reference
exists. -/
lemma probeTotal (u : BranchPredUnit) (pc priv : Nat) :
    ∃ r, bpu_probe u pc priv = some r := by
  rcases hap : u.ap with _ | ap <;>
    rcases hl : lookupBtb u.btb pc with _ | e <;>
      simp only [bpu_probe, btb_probe, hap, hl, BPU_MISS, BPU_HIT]
  · exact ⟨_, rfl⟩
  · exact ⟨_, rfl⟩
  · simp only [reduceIte]
    exact ⟨_, rfl⟩
  · by_cases hty : e.type = BRANCH_COND <;> simp only [reduceIte, hty]
    · exact ⟨_, rfl⟩
    · exact ⟨_, rfl⟩

/-- C10: `bpu_probe` is well-defined for every pc, privilege level and unit
state: the borrowed entry reference is read (bpu.c line 93) only after the
short-circuit on line 92 established `btb_probe_status` is HIT, so the
embedded probe (whose dereference of a missing reference would yield `none`)
always returns a result. -/
theorem c10_probe_no_null_deref (u : BranchPredUnit) (pc priv : Nat) :
    ∃ r, bpu_probe u pc priv = some r :=
  probeTotal u pc priv

/-- C1: every probe call sets `ap_probe_status` to the adaptive predictor's
probe answer exactly when an adaptive predictor exists and the BTB either
missed or hit an entry of type CONDITIONAL (`apConsulted`); in every other
case `ap_probe_status` keeps its initial value BPU_HIT. -/
theorem c1_ap_status_policy (u : BranchPredUnit) (pc priv : Nat) :
    ∃ r, bpu_probe u pc priv = some r ∧
      (u.ap = none → r.2.ap_probe_status = BPU_HIT) ∧
      (∀ ap, u.ap = some ap →
        (apConsulted r.2 → r.2.ap_probe_status = adaptive_predictor_probe ap pc) ∧
        (¬apConsulted r.2 → r.2.ap_probe_status = BPU_HIT)) := by
  obtain ⟨r, hr⟩ := probeTotal u pc priv
  obtain ⟨-, -, -, -, -, -, -, -, hnone, hsome⟩ := probeChar u pc priv r hr
  exact ⟨r, hr, hnone, hsome⟩

/-- C2: in every response packet produced by `bpu_probe`, the combined
`bpu_probe_status` equals HIT iff both `btb_probe_status` and
`ap_probe_status` equal HIT. -/
theorem c2_combined_status (u : BranchPredUnit) (pc priv : Nat) :
    ∃ r, bpu_probe u pc priv = some r ∧
      (r.2.bpu_probe_status = BPU_HIT ↔
        (r.2.btb_probe_status = BPU_HIT ∧ r.2.ap_probe_status = BPU_HIT)) := by
  obtain ⟨r, hr⟩ := probeTotal u pc priv
  obtain ⟨-, -, -, -, -, hand, hb, ha, -, -⟩ := probeChar u pc priv r hr
  refine ⟨r, hr, ?_⟩
  rw [hand]
  unfold BPU_HIT
  rcases hb with hb | hb <;> rcases ha with ha | ha <;>
    rw [hb, ha] <;> simp [cLAnd]

/-- The statistics counters at the probed privilege level after one
successful probe. -/
lemma probeStatsStep (u : BranchPredUnit) (pc priv : Nat)
    (r : BranchPredUnit × BPUResponsePkt) (h : bpu_probe u pc priv = some r) :
    (r.1.stats priv).btb_probes = (u.stats priv).btb_probes + 1 ∧
      ((btb_probe u.btb pc).1 = BPU_HIT →
        (r.1.stats priv).btb_hits = (u.stats priv).btb_hits + 1) ∧
      ((btb_probe u.btb pc).1 ≠ BPU_HIT →
        (r.1.stats priv).btb_hits = (u.stats priv).btb_hits) ∧
      r.2.btb_probe_status = (btb_probe u.btb pc).1 := by
  obtain ⟨-, -, hst, hbst, -, -, -, -, -, -⟩ := probeChar u pc priv r h
  refine ⟨?_, ?_, ?_, hbst⟩ <;> rw [hst] <;> unfold bumpProbeStats
  · by_cases hh : (btb_probe u.btb pc).1 = BPU_HIT <;> simp [hh]
  · intro hh
    simp [hh]
  · intro hh
    simp [hh]

/-- Threading any sequence of probes: every probe succeeds, the probe counter
grows by the number of calls, and the hit counter grows by at most that. -/
lemma probeManyStats (pcs : List Nat) :
    ∀ (u : BranchPredUnit) (priv : Nat),
      ∃ u', probeMany u pcs priv = some u' ∧
        (u'.stats priv).btb_probes = (u.stats priv).btb_probes + pcs.length ∧
        (u'.stats priv).btb_hits ≤ (u.stats priv).btb_hits + pcs.length := by
  induction pcs with
  | nil =>
    intro u priv
    exact ⟨u, rfl, by simp, by simp⟩
  | cons pc rest ih =>
    intro u priv
    obtain ⟨r, hr⟩ := probeTotal u pc priv
    obtain ⟨hp, hhit, hmiss, -⟩ := probeStatsStep u pc priv r hr
    obtain ⟨u', hm, hp', hh'⟩ := ih r.1 priv
    refine ⟨u', ?_, ?_, ?_⟩
    · simp only [probeMany, hr]
      exact hm
    · rw [hp', hp, List.length_cons]
      omega
    · have hbound : (r.1.stats priv).btb_hits ≤ (u.stats priv).btb_hits + 1 := by
        by_cases hh : (btb_probe u.btb pc).1 = BPU_HIT
        · rw [hhit hh]
        · rw [hmiss hh]
          omega
      calc (u'.stats priv).btb_hits
          ≤ (r.1.stats priv).btb_hits + rest.length := hh'
        _ ≤ (u.stats priv).btb_hits + 1 + rest.length := by omega
        _ = (u.stats priv).btb_hits + (pc :: rest).length := by
            rw [List.length_cons]; omega

/-- C8: every probe call at privilege `priv` — from any unit state whatever —
increments the probe counter by exactly one, and increments the hit counter
by one exactly when the BTB lookup hit (packet status BPU_HIT) and leaves it
unchanged on a miss; consequently, any sequence of probe calls starting from
zeroed counters leaves `btb_probes` equal to the call count and
`btb_hits ≤ btb_probes`. -/
theorem c8_probe_statistics (priv : Nat) :
    (∀ (v : BranchPredUnit) (pc : Nat), ∃ r, bpu_probe v pc priv = some r ∧
        (r.1.stats priv).btb_probes = (v.stats priv).btb_probes + 1 ∧
        (r.2.btb_probe_status = BPU_HIT →
          (r.1.stats priv).btb_hits = (v.stats priv).btb_hits + 1) ∧
        (r.2.btb_probe_status = BPU_MISS →
          (r.1.stats priv).btb_hits = (v.stats priv).btb_hits)) ∧
      (∀ (u : BranchPredUnit) (pcs : List Nat),
        (u.stats priv).btb_probes = 0 → (u.stats priv).btb_hits = 0 →
        ∃ u', probeMany u pcs priv = some u' ∧
          (u'.stats priv).btb_probes = pcs.length ∧
          (u'.stats priv).btb_hits ≤ (u'.stats priv).btb_probes) := by
  constructor
  · intro v pc
    obtain ⟨r, hr⟩ := probeTotal v pc priv
    obtain ⟨hp, hhit, hmiss, hst⟩ := probeStatsStep v pc priv r hr
    refine ⟨r, hr, hp, ?_, ?_⟩
    · intro hh
      exact hhit (by rw [← hst]; exact hh)
    · intro hh
      refine hmiss ?_
      rw [← hst, hh]
      unfold BPU_MISS BPU_HIT
      omega
  · intro u pcs h0 h1
    obtain ⟨u', hm, hp, hh⟩ := probeManyStats pcs u priv
    refine ⟨u', hm, ?_, ?_⟩
    · rw [hp, h0]
      omega
    · rw [hp, h0, h1] at *
      omega

/-- Witness for C8: the per-call conclusion at a concrete unit whose
counters are already at 1 (after one earlier probe), and the sequence
conclusion at a concrete unit with zeroed counters probed three times;
both obtained from the theorem with its hypotheses discharged. -/
theorem c8_probe_statistics_witness :
    (∃ r, bpu_probe (bpu_add uAdaptive 9 BRANCH_COND pktMissAll 0) 7 0 = some r ∧
        (r.1.stats 0).btb_probes =
          (((bpu_add uAdaptive 9 BRANCH_COND pktMissAll 0).stats 0).btb_probes + 1) ∧
        (r.2.btb_probe_status = BPU_HIT →
          (r.1.stats 0).btb_hits =
            ((bpu_add uAdaptive 9 BRANCH_COND pktMissAll 0).stats 0).btb_hits + 1) ∧
        (r.2.btb_probe_status = BPU_MISS →
          (r.1.stats 0).btb_hits =
            ((bpu_add uAdaptive 9 BRANCH_COND pktMissAll 0).stats 0).btb_hits)) ∧
      (uAdaptive.stats 0).btb_probes = 0 ∧ (uAdaptive.stats 0).btb_hits = 0 ∧
      (∃ u', probeMany uAdaptive [7, 3, 7] 0 = some u' ∧
        (u'.stats 0).btb_probes = ([7, 3, 7] : List Nat).length ∧
        (u'.stats 0).btb_hits ≤ (u'.stats 0).btb_probes) :=
  ⟨(c8_probe_statistics 0).1 (bpu_add uAdaptive 9 BRANCH_COND pktMissAll 0) 7,
    rfl, rfl, (c8_probe_statistics 0).2 uAdaptive [7, 3, 7] rfl rfl⟩

/-- C6: `bpu_add` allocates a fresh BTB entry for the pc (type as given,
target and counter at their defaults) and bumps the insert counter exactly
when the recorded BTB probe status was MISS, leaving the BTB and the insert
counter untouched on a recorded HIT; and the adaptive predictor gains
tracking state for the pc exactly under the condition of bpu.c lines
160-165 (predictor present, CONDITIONAL type, recorded ap status MISS) —
in every other case, unconditional branches included, it is untouched. -/
theorem c6_add_policy (u : BranchPredUnit) (pc ty : Nat) (p : BPUResponsePkt)
    (priv : Nat) :
    ((p.btb_probe_status = BPU_MISS →
        lookupBtb (bpu_add u pc ty p priv).btb pc =
          some { target := 0, type := ty, pred := 0 } ∧
        (bpu_add u pc ty p priv).btb.length = u.btb.length + 1 ∧
        ((bpu_add u pc ty p priv).stats priv).btb_inserts =
          (u.stats priv).btb_inserts + 1) ∧
      (p.btb_probe_status = BPU_HIT →
        (bpu_add u pc ty p priv).btb = u.btb ∧
        ((bpu_add u pc ty p priv).stats priv).btb_inserts =
          (u.stats priv).btb_inserts)) ∧
    ((u.ap.isSome ∧ ty = BRANCH_COND ∧ p.ap_probe_status = BPU_MISS) →
        apTracks (bpu_add u pc ty p priv) pc) ∧
    (¬(u.ap.isSome ∧ ty = BRANCH_COND ∧ p.ap_probe_status = BPU_MISS) →
        (bpu_add u pc ty p priv).ap = u.ap) := by
  rcases hap : u.ap with _ | ap <;>
    by_cases hb : p.btb_probe_status = 0 <;>
      by_cases hty : ty = BRANCH_COND <;>
        by_cases has : p.ap_probe_status = 0 <;>
          refine ⟨⟨fun hm => ?_, fun hh => ?_⟩, fun hc => ?_, fun hnc => ?_⟩ <;>
            simp_all [bpu_add, btb_add, lookupBtb, apTracks,
              adaptive_predictor_add, BPU_MISS, BPU_HIT]

/-- Witness for C6: adding a conditional branch at a fresh pc after a full
miss allocates the BTB entry and gives the adaptive predictor tracking
state. -/
theorem c6_add_policy_witness :
    (pktMissAll.btb_probe_status = BPU_MISS ∧
        lookupBtb (bpu_add uAdaptive 9 BRANCH_COND pktMissAll 0).btb 9 =
          some { target := 0, type := BRANCH_COND, pred := 0 }) ∧
      (uAdaptive.ap.isSome ∧ BRANCH_COND = BRANCH_COND ∧
          pktMissAll.ap_probe_status = BPU_MISS) ∧
      apTracks (bpu_add uAdaptive 9 BRANCH_COND pktMissAll 0) 9 :=
  ⟨⟨by decide,
      ((c6_add_policy uAdaptive 9 BRANCH_COND pktMissAll 0).1.1 (by decide)).1⟩,
    ⟨by decide, rfl, by decide⟩,
    (c6_add_policy uAdaptive 9 BRANCH_COND pktMissAll 0).2.1
      ⟨by decide, rfl, by decide⟩⟩

/-- Writing back through the borrowed reference: looking up the written pc
afterwards yields the written entry, provided the pc was present. -/
lemma lookupBtb_writeBtb (btb : List (Nat × BtbEntry)) (pc : Nat)
    (e e' : BtbEntry) (h : lookupBtb btb pc = some e) :
    lookupBtb (writeBtb btb pc e') pc = some e' := by
  induction btb with
  | nil => simp [lookupBtb] at h
  | cons kv rest ih =>
    obtain ⟨k, e0⟩ := kv
    by_cases hk : k = pc
    · simp [lookupBtb, writeBtb, hk]
    · simp only [lookupBtb, writeBtb, hk, if_false, if_neg hk] at h ⊢
      exact ih h

/-- C7: given a packet from a prior probe of the same pc (statuses binary;
on a recorded BTB hit the borrowed reference is the entry stored at the pc),
`bpu_update` rewrites that entry's target and steps its saturating counter
per the taken-bit and bumps the update counter exactly when the recorded BTB
status was HIT, leaving the BTB and the counter untouched on a recorded
MISS; and the adaptive predictor is fed the resolved taken-bit exactly under
the condition of bpu.c lines 181-186 (predictor present, CONDITIONAL type,
recorded ap status HIT) — in every other case it is untouched. -/
theorem c7_update_policy (u : BranchPredUnit) (pc target taken ty priv : Nat)
    (p : BPUResponsePkt) (e : BtbEntry)
    (hbs : p.btb_probe_status = BPU_MISS ∨ p.btb_probe_status = BPU_HIT)
    (has : p.ap_probe_status = BPU_MISS ∨ p.ap_probe_status = BPU_HIT)
    (hent : p.btb_probe_status = BPU_HIT →
      p.btb_entry = some e ∧ lookupBtb u.btb pc = some e) :
    ∃ u', bpu_update u pc target taken ty p priv = some u' ∧
      (p.btb_probe_status = BPU_HIT →
        lookupBtb u'.btb pc = some (btb_update_entry e target taken) ∧
        (u'.stats priv).btb_updates = (u.stats priv).btb_updates + 1) ∧
      (p.btb_probe_status = BPU_MISS →
        u'.btb = u.btb ∧
        (u'.stats priv).btb_updates = (u.stats priv).btb_updates) ∧
      ((u.ap.isSome ∧ ty = BRANCH_COND ∧ p.ap_probe_status = BPU_HIT) →
        apFed u' pc taken) ∧
      (¬(u.ap.isSome ∧ ty = BRANCH_COND ∧ p.ap_probe_status = BPU_HIT) →
        u'.ap = u.ap) := by
  rcases hbs with hb | hb
  · rcases hap : u.ap with _ | ap <;>
      by_cases hty : ty = BRANCH_COND <;>
        rcases has with ha | ha <;>
          simp_all [bpu_update, apFed, adaptive_predictor_update,
            BPU_MISS, BPU_HIT]
  · obtain ⟨hpe, hle⟩ := hent hb
    have hw := lookupBtb_writeBtb u.btb pc e (btb_update_entry e target taken) hle
    rcases hap : u.ap with _ | ap <;>
      by_cases hty : ty = BRANCH_COND <;>
        rcases has with ha | ha <;>
          simp_all [bpu_update, apFed, adaptive_predictor_update,
            BPU_MISS, BPU_HIT]

/-- Witness for C7: resolving the conditional branch at pc 7 of `uAdaptive`
as taken with resolved target 12, after a probe that hit both structures. -/
theorem c7_update_policy_witness :
    (pktHitAll.btb_probe_status = BPU_MISS ∨
        pktHitAll.btb_probe_status = BPU_HIT) ∧
      (pktHitAll.ap_probe_status = BPU_MISS ∨
        pktHitAll.ap_probe_status = BPU_HIT) ∧
      (pktHitAll.btb_probe_status = BPU_HIT →
        pktHitAll.btb_entry = some eCond ∧
          lookupBtb uAdaptive.btb 7 = some eCond) ∧
      (∃ u', bpu_update uAdaptive 7 12 1 BRANCH_COND pktHitAll 0 = some u' ∧
        (pktHitAll.btb_probe_status = BPU_HIT →
          lookupBtb u'.btb 7 = some (btb_update_entry eCond 12 1) ∧
          (u'.stats 0).btb_updates = (uAdaptive.stats 0).btb_updates + 1) ∧
        (pktHitAll.btb_probe_status = BPU_MISS →
          u'.btb = uAdaptive.btb ∧
          (u'.stats 0).btb_updates = (uAdaptive.stats 0).btb_updates) ∧
        ((uAdaptive.ap.isSome ∧ BRANCH_COND = BRANCH_COND ∧
            pktHitAll.ap_probe_status = BPU_HIT) →
          apFed u' 7 1) ∧
        (¬(uAdaptive.ap.isSome ∧ BRANCH_COND = BRANCH_COND ∧
            pktHitAll.ap_probe_status = BPU_HIT) →
          u'.ap = uAdaptive.ap)) :=
  ⟨by decide, by decide, by decide,
    c7_update_policy uAdaptive 7 12 1 BRANCH_COND 0 pktHitAll eCond
      (by decide) (by decide) (by decide)⟩
